import Mathlib

/-!
Shallow embedding of `ccc.py`, a command-line client for a remote
medical-signal management API.  The HTTP transport and the OS are modelled
as an environment (`Server`) mapping each request shape to the response the
remote side gives; every operation of the client is embedded as a Lean
function that returns both the requests it issued (in order) and its
Python-level result (normal value, raised exception, or process exit).
-/

namespace Ccc

/-- HTTP headers, as an association list of header name / value pairs. -/
abbrev Headers := List (String × String)

/-- Python file object passed to `handle_upload` (`args.file_path`):
its `name` attribute plus an identity token distinguishing the open handle. -/
structure PyFile where
  name : String
  fid : Nat
  deriving Repr, DecidableEq

/-- A signal record as the server returns it; the client only reads the
fields accessed through `.get` in `ccc.py` (`id`, `physician.name`,
`created_at`, `status`, `new`). -/
structure Signal where
  id : Int
  physicianName : String
  createdAt : String
  status : String
  new : Bool
  deriving Repr, DecidableEq

/-- One outbound HTTP request, as issued by the client.  Each constructor
records the data the corresponding call in `ccc.py` puts on the wire,
including the headers (the session requests carry `Private-Token`,
the plain `requests.get` / `requests.post` calls do not). -/
inductive Request where
  /-- `GET /api/v2/signals?page=..&per_page=..[&new=true]` via the session. -/
  | signalsPage (page : Nat) (perPage : Nat) (newParam : Option Bool) (headers : Headers)
  /-- `POST /api/v2/signals` with body `name`, `file_names_list=[fileName]` via the session. -/
  | createSignal (name : String) (fileName : String) (headers : Headers)
  /-- `GET /api/v2/signals/{id}/report/printout` via the session. -/
  | printout (signalId : Int) (headers : Headers)
  /-- Plain `requests.get(url, stream=True)` (object/report storage). -/
  | fetchUrl (url : String) (headers : Headers)
  /-- Plain `requests.post(url, files=..., data=..., stream=True)` to object storage. -/
  | storagePost (url : String) (file : PyFile) (postFields : List (String × String)) (headers : Headers)
  deriving Repr, DecidableEq

/-- Python exceptions the embedded code can raise. -/
inductive PyExc where
  | accessDenied
  | notVisitedBeforeViaPortal
  | objectStorageUpload
  | notImplemented
  | diskFull
  | osError (errno : Nat)
  | indexError
  deriving Repr, DecidableEq

/-- Response to a signals-page request: status code, the integer value of
the `x-total-pages` header, and the JSON array body. -/
structure PageResp where
  status : Nat
  totalPages : Nat
  body : List Signal
  deriving Repr, DecidableEq

/-- Response to a printout request: status code and the `{url, name}` body. -/
structure PrintoutResp where
  status : Nat
  url : String
  name : String
  deriving Repr, DecidableEq

/-- One file descriptor of a create-signal response: `{url, post_fields}`. -/
structure UploadTarget where
  url : String
  postFields : List (String × String)
  deriving Repr, DecidableEq

/-- Response to a create-signal request: status code and the `files` array. -/
structure CreateResp where
  status : Nat
  files : List UploadTarget
  deriving Repr, DecidableEq

/-- Result of writing the downloaded stream to a local path. -/
inductive WriteOutcome where
  | ok
  | osError (errno : Nat)
  deriving Repr, DecidableEq

/-- The environment: what the remote side answers to each request shape,
and what the local disk does on a write.  `signalsPage` is keyed by the
page number and the `new` query parameter actually sent. -/
structure Server where
  signalsPage : Nat → Option Bool → PageResp
  printout : Int → PrintoutResp
  createSignal : String → String → CreateResp
  fileStatus : String → Nat
  storageStatus : String → Nat
  write : String → WriteOutcome

/-- `errno.ENOSPC` (no space left on device). -/
def ENOSPC : Nat := 28

/-- `APIService._PER_PAGE`. -/
def PER_PAGE : Nat := 50

/-- `INVALUD_TOKEN_MESSAGE` (name as in the source). -/
def INVALUD_TOKEN_MESSAGE : String := "\nInvalid token"

/-- The client (`APIService` instance): constructed from one access token. -/
structure APIService where
  accessToken : String
  deriving Repr, DecidableEq

/-- Headers the `requests.Session` attaches after `APIService.__init__`. -/
def sessionHeaders (svc : APIService) : Headers :=
  [("Private-Token", svc.accessToken)]

/-- A `requests` response is `ok` exactly when its status code is < 400. -/
def respOk (status : Nat) : Bool := status < 400

/-- The `new` query parameter `_get_signals_page` sends: present only when
the `new` argument is truthy (`if new: params['new'] = new`). -/
def newParamOf (new : Option Bool) : Option Bool :=
  if new = some true then some true else none

/-- `APIService._get_signals_page(page, new)`: one request to the listing
endpoint; 401 raises `AccessDeniedError`, 200 returns the `x-total-pages`
header value and the body, anything else raises `NotImplementedError`. -/
def get_signals_page (srv : Server) (svc : APIService) (page : Nat) (new : Option Bool) :
    Request × Except PyExc (Nat × List Signal) :=
  let np := newParamOf new
  let resp := srv.signalsPage page np
  (Request.signalsPage page PER_PAGE np (sessionHeaders svc),
   if resp.status = 401 then .error .accessDenied
   else if resp.status = 200 then .ok (resp.totalPages, resp.body)
   else .error .notImplemented)

/-- `APIService.create_new_signal(name, file_name)`: 401 raises
`AccessDeniedError`, 201 returns the JSON body, else `NotImplementedError`. -/
def create_new_signal (srv : Server) (svc : APIService) (name : String) (fileName : String) :
    Request × Except PyExc CreateResp :=
  let resp := srv.createSignal name fileName
  (Request.createSignal name fileName (sessionHeaders svc),
   if resp.status = 401 then .error .accessDenied
   else if resp.status = 201 then .ok resp
   else .error .notImplemented)

/-- `APIService.upload_file_to_object_storage(url, file, post_fields)`:
a plain `requests.post` (no session, hence no token header); a non-ok
response raises `ObjectStorageUploadError`. -/
def upload_file_to_object_storage (srv : Server) (url : String) (file : PyFile)
    (postFields : List (String × String)) : Request × Except PyExc Unit :=
  (Request.storagePost url file postFields [],
   if respOk (srv.storageStatus url) then .ok () else .error .objectStorageUpload)

/-- `APIService.request_printout(signal_id)`: 401 raises
`AccessDeniedError`, 403 raises `NotVisitedBeforeViaPortalError`,
200 returns the `{url, name}` body, else `NotImplementedError`. -/
def request_printout (srv : Server) (svc : APIService) (signalId : Int) :
    Request × Except PyExc PrintoutResp :=
  let resp := srv.printout signalId
  (Request.printout signalId (sessionHeaders svc),
   if resp.status = 401 then .error .accessDenied
   else if resp.status = 403 then .error .notVisitedBeforeViaPortal
   else if resp.status = 200 then .ok resp
   else .error .notImplemented)

/-- `APIService.get_file(url)`: a plain `requests.get` (no session, hence
no token header); returns the response when it is ok, else raises
`NotImplementedError`.  The result carries the final status code. -/
def get_file (srv : Server) (url : String) : Request × Except PyExc Nat :=
  (Request.fetchUrl url [],
   if respOk (srv.fileStatus url) then .ok (srv.fileStatus url)
   else .error .notImplemented)

/-- Trace of one run of the generator `get_list_signals_batches`: the page
requests it issued, the batches it yielded, and the exception (if any)
that ended the iteration instead of normal exhaustion. -/
structure GenTrace where
  requests : List Request
  yielded : List (List Signal)
  error : Option PyExc
  deriving Repr, DecidableEq

/-- The `for page in range(2, int(last_page) + 1)` loop body of
`get_list_signals_batches`, run over the given list of page numbers:
each iteration issues one page request, discards that response's
`x-total-pages`, and yields the body. -/
def pages_loop (srv : Server) (svc : APIService) (new : Option Bool) :
    List Nat → GenTrace
  | [] => ⟨[], [], none⟩
  | p :: ps =>
    let (req, r) := get_signals_page srv svc p new
    match r with
    | .error e => ⟨[req], [], some e⟩
    | .ok (_, data) =>
      let t := pages_loop srv svc new ps
      ⟨req :: t.requests, data :: t.yielded, t.error⟩

/-- `APIService.get_list_signals_batches(new)`: request page 1, yield its
body, then request and yield pages `2 .. int(last_page)` where
`last_page` is the `x-total-pages` value of page 1's response. -/
def get_list_signals_batches (srv : Server) (svc : APIService) (new : Option Bool) : GenTrace :=
  let (req1, r1) := get_signals_page srv svc 1 new
  match r1 with
  | .error e => ⟨[req1], [], some e⟩
  | .ok (lastPage, data) =>
    let t := pages_loop srv svc new (List.range' 2 (lastPage - 1))
    ⟨req1 :: t.requests, data :: t.yielded, t.error⟩

/-- A naive (timezone-free) `datetime.datetime` value, as returned by
`datetime.now()`. -/
structure PyDateTime where
  year : Nat
  month : Nat
  day : Nat
  hour : Nat
  minute : Nat
  second : Nat
  microsecond : Nat
  deriving Repr, DecidableEq

/-- Decimal rendering of `n` left-padded with zeros to width `w`. -/
def padZero (w : Nat) (n : Nat) : String :=
  let s := toString n
  String.mk (List.replicate (w - s.length) '0') ++ s

/-- Python `datetime.isoformat()` on a naive datetime: `YYYY-MM-DDTHH:MM:SS`,
followed by `.ffffff` when the microsecond component is nonzero (the
default `timespec='auto'` behaviour), and no timezone offset. -/
def pyIsoformat (t : PyDateTime) : String :=
  padZero 4 t.year ++ "-" ++ padZero 2 t.month ++ "-" ++ padZero 2 t.day ++ "T" ++
    padZero 2 t.hour ++ ":" ++ padZero 2 t.minute ++ ":" ++ padZero 2 t.second ++
    (if t.microsecond = 0 then "" else "." ++ padZero 6 t.microsecond)

/-- Index of the last occurrence of `c` in `l` (Python `str.rfind`),
or `none` when `c` does not occur. -/
def lastIdxOf (c : Char) : List Char → Option Nat
  | [] => none
  | a :: as =>
    match lastIdxOf c as with
    | some i => some (i + 1)
    | none => if a = c then some 0 else none

/-- Python `pathlib.Path(name).suffix` for a single-component file name
(the base names here come from the server's `{url, name}` descriptor):
the part from the last dot, provided that dot is neither the first
character nor the last one; otherwise the empty string. -/
def pySuffix (name : String) : String :=
  let cs := name.toList
  match lastIdxOf '.' cs with
  | none => ""
  | some i =>
    if i = 0 ∨ i = cs.length - 1 then "" else String.mk (cs.drop i)

/-- Python `pathlib.Path(name).stem` for a single-component file name:
the part before the last dot when that dot is neither the first nor the
last character; otherwise the whole name. -/
def pyStem (name : String) : String :=
  let cs := name.toList
  match lastIdxOf '.' cs with
  | none => name
  | some i =>
    if i = 0 ∨ i = cs.length - 1 then name else String.mk (cs.take i)

/-- `get_local_filename(base_file_name)` with the wall clock made explicit:
`f'{Path(base).stem}-{datetime.now().isoformat()}{Path(base).suffix}'`. -/
def get_local_filename (baseFileName : String) (now : PyDateTime) : String :=
  pyStem baseFileName ++ "-" ++ pyIsoformat now ++ pySuffix baseFileName

/-- Python `os.path.basename` (POSIX): the part after the last slash. -/
def osPathBasename (path : String) : String :=
  match lastIdxOf '/' path.toList with
  | none => path
  | some i => String.mk (path.toList.drop (i + 1))

/-- Python `os.path.join(a, b)` (POSIX) for the two-argument case. -/
def osPathJoin (a b : String) : String :=
  match b.toList with
  | '/' :: _ => b
  | _ =>
    if a = "" then b
    else if a.toList.getLast? = some '/' then a ++ b
    else a ++ "/" ++ b

/-- One line of console output: either a printed message or a signals
table printed through `PrintService.print_signals` (the table carries the
signal list passed in; tabulate's text formatting is presentation glue). -/
inductive OutLine where
  | msg (s : String)
  | table (signals : List Signal)
  deriving Repr, DecidableEq

/-- How a run of an orchestration function ends: it returns normally,
terminates the process via `exit(code)`, or lets an exception propagate. -/
inductive Ctl (σ : Type) where
  | ok (st : σ)
  | exited (code : Nat) (st : σ)
  | raised (e : PyExc) (st : σ)
  deriving Repr, DecidableEq

/-- Trace of one run of the wrapper generator
`get_list_signals_batches_auth_handled`. -/
structure WrapTrace where
  requests : List Request
  yielded : List (List Signal)
  output : List OutLine
  outcome : Ctl Unit
  deriving Repr, DecidableEq

/-- `get_list_signals_batches_auth_handled(api_service, new)`: drains the
underlying generator, yielding each batch; `AccessDeniedError` from a
`next()` call prints the invalid-token message and exits with status 1;
`StopIteration` ends the iteration; any other exception propagates. -/
def get_list_signals_batches_auth_handled (srv : Server) (svc : APIService)
    (new : Option Bool) : WrapTrace :=
  let g := get_list_signals_batches srv svc new
  match g.error with
  | none => ⟨g.requests, g.yielded, [], .ok ()⟩
  | some .accessDenied =>
    ⟨g.requests, g.yielded, [.msg INVALUD_TOKEN_MESSAGE], .exited 1 ()⟩
  | some e => ⟨g.requests, g.yielded, [], .raised e ()⟩

/-- `PrintService.signals_object_to_column(signal)`: the five displayed
cells, rendered as strings. -/
def signals_object_to_column (s : Signal) : List String :=
  [toString s.id, s.physicianName, s.createdAt, s.status,
   if s.new then "True" else "False"]

/-- `PrintService.print_signals(signals)` as an output line. -/
def print_signals (signals : List Signal) : OutLine := .table signals

/-- State accumulated by `handle_list`. -/
structure ListState where
  requests : List Request
  output : List OutLine
  deriving Repr, DecidableEq

/-- `handle_list(args)`: drain the auth-handled iterator into one flat
signal list, then print the header line and the table.  If the iteration
exits or raises, nothing further is printed. -/
def handle_list (srv : Server) (svc : APIService) : Ctl ListState :=
  let w := get_list_signals_batches_auth_handled srv svc none
  match w.outcome with
  | .ok () =>
    .ok ⟨w.requests, w.output ++ [.msg "\nList of signals:", print_signals w.yielded.flatten]⟩
  | .exited c () => .exited c ⟨w.requests, w.output⟩
  | .raised e () => .raised e ⟨w.requests, w.output⟩

/-- State accumulated by `handle_upload`. -/
structure UpState where
  requests : List Request
  output : List OutLine
  deriving Repr, DecidableEq

/-- `handle_upload(args)`: create the signal (401 prints the invalid-token
message and exits 1; an unexpected status propagates), read `url` and
`post_fields` from the first entry of the response's `files` array (an
empty array raises `IndexError`), then upload to object storage (a failed
upload prints a message and exits 1). -/
def handle_upload (srv : Server) (svc : APIService) (filePath : PyFile)
    (name : String) : Ctl UpState :=
  let fileName := osPathBasename filePath.name
  let (reqC, rC) := create_new_signal srv svc name fileName
  match rC with
  | .error .accessDenied =>
    .exited 1 ⟨[reqC], [.msg INVALUD_TOKEN_MESSAGE]⟩
  | .error e => .raised e ⟨[reqC], []⟩
  | .ok resp =>
    let out0 : List OutLine := [.msg "Sucessfully created object on Cardiomatics API"]
    match resp.files with
    | [] => .raised .indexError ⟨[reqC], out0⟩
    | target :: _ =>
      let out1 := out0 ++ [.msg "Uploading file to object store..."]
      let (reqU, rU) := upload_file_to_object_storage srv target.url filePath target.postFields
      match rU with
      | .error _ => .exited 1 ⟨[reqC, reqU], out1 ++ [.msg "Object store error"]⟩
      | .ok () => .ok ⟨[reqC, reqU], out1 ++ [.msg "Upload successful!"]⟩

/-- `download_file_with_progress_bar(api_service, url, dir_path, file_name)`:
fetch the url through `get_file` (a non-ok response raises
`NotImplementedError`, which is not an `OSError` and so escapes the
handler), then stream the body into `os.path.join(dir_path, file_name)`.
An `OSError` during the open/write with `errno == ENOSPC` is re-raised as
`DiskFullError`; any other `OSError` is re-raised as itself. -/
def download_file_with_progress_bar (srv : Server) (url : String) (dirPath : String)
    (fileName : String) : Request × Except PyExc Unit :=
  let (req, r) := get_file srv url
  (req,
   match r with
   | .error e => .error e
   | .ok _ =>
     match srv.write (osPathJoin dirPath fileName) with
     | .ok => .ok ()
     | .osError e => if e = ENOSPC then .error .diskFull else .error (.osError e))

/-- State accumulated by `handle_download`. -/
structure DLState where
  requests : List Request
  output : List OutLine
  downloaded : List Signal
  notDownloaded : List Signal
  deriving Repr, DecidableEq

/-- The body of `handle_download`'s inner loop for one signal:
a status outside `['Warning', 'Done']` appends the signal to
`not_downloaded_reports` with no request; otherwise a printout request is
made (403 appends it to `not_downloaded_reports`, prints a message and
continues; 401 and unexpected statuses propagate), and on a descriptor the
report is downloaded (`DiskFullError` prints a message and exits 1, other
exceptions propagate), after which the signal joins `downloaded_reports`. -/
def processSignal (srv : Server) (svc : APIService) (dirPath : String)
    (now : PyDateTime) (st : DLState) (s : Signal) : Ctl DLState :=
  if s.status ∉ (["Warning", "Done"] : List String) then
    .ok { st with notDownloaded := st.notDownloaded ++ [s] }
  else
    let (reqP, rP) := request_printout srv svc s.id
    let st1 := { st with requests := st.requests ++ [reqP] }
    match rP with
    | .error .notVisitedBeforeViaPortal =>
      .ok { st1 with notDownloaded := st1.notDownloaded ++ [s],
                     output := st1.output ++ [.msg "Not visited by app before"] }
    | .error e => .raised e st1
    | .ok desc =>
      let localName := get_local_filename desc.name now
      let (reqD, rD) := download_file_with_progress_bar srv desc.url dirPath localName
      let st2 := { st1 with requests := st1.requests ++ [reqD] }
      match rD with
      | .error .diskFull =>
        .exited 1 { st2 with output := st2.output ++ [.msg "Disk full, can't download"] }
      | .error e => .raised e st2
      | .ok () => .ok { st2 with downloaded := st2.downloaded ++ [s] }

/-- `handle_download`'s inner `for signal in signals_batch` loop: process
the signals in order, stopping early when one of them exits or raises. -/
def processBatch (srv : Server) (svc : APIService) (dirPath : String)
    (now : PyDateTime) : DLState → List Signal → Ctl DLState
  | st, [] => .ok st
  | st, s :: rest =>
    match processSignal srv svc dirPath now st s with
    | .ok st' => processBatch srv svc dirPath now st' rest
    | other => other

/-- One step of `handle_download`'s outer loop: pull the next batch from
the (lazy) auth-handled iterator — i.e. issue one page request — and
process it.  A 401 on the page request prints the invalid-token message
and exits 1 (the wrapper's handler); an unexpected status propagates. -/
def fetchAndProcessPage (srv : Server) (svc : APIService) (new : Option Bool)
    (dirPath : String) (now : PyDateTime) (st : DLState) (page : Nat) :
    Ctl (DLState × Nat) :=
  let (req, r) := get_signals_page srv svc page new
  let st1 := { st with requests := st.requests ++ [req] }
  match r with
  | .error .accessDenied =>
    .exited 1 ({ st1 with output := st1.output ++ [.msg INVALUD_TOKEN_MESSAGE] }, 0)
  | .error e => .raised e (st1, 0)
  | .ok (lastPage, batch) =>
    match processBatch srv svc dirPath now st1 batch with
    | .ok st2 => .ok (st2, lastPage)
    | .exited c st2 => .exited c (st2, lastPage)
    | .raised e st2 => .raised e (st2, lastPage)

/-- `handle_download`'s outer loop over the remaining page numbers
(pages 2 and up).  Because the iterator is lazy, each page request is
issued only after the previous batch was fully processed. -/
def downloadPagesLoop (srv : Server) (svc : APIService) (new : Option Bool)
    (dirPath : String) (now : PyDateTime) : DLState → List Nat → Ctl DLState
  | st, [] => .ok st
  | st, p :: ps =>
    match fetchAndProcessPage srv svc new dirPath now st p with
    | .ok (st', _) => downloadPagesLoop srv svc new dirPath now st' ps
    | .exited c (st', _) => .exited c st'
    | .raised e (st', _) => .raised e st'

/-- The batch-processing phase of `handle_download`: page 1 (whose
response's `x-total-pages` fixes the loop bound), then pages
`2 .. last_page` interleaved with their processing. -/
def handleDownloadCore (srv : Server) (svc : APIService) (new : Option Bool)
    (dirPath : String) (now : PyDateTime) : Ctl DLState :=
  match fetchAndProcessPage srv svc new dirPath now ⟨[], [], [], []⟩ 1 with
  | .ok (st, lastPage) =>
    downloadPagesLoop srv svc new dirPath now st (List.range' 2 (lastPage - 1))
  | .exited c (st, _) => .exited c st
  | .raised e (st, _) => .raised e st

/-- The final reporting of `handle_download`: a count line and table of
downloaded reports when nonempty, a table of not-downloaded reports when
nonempty, and a no-signals line when both are empty. -/
def downloadReportOutput (st : DLState) : List OutLine :=
  (if st.downloaded ≠ [] then
    [.msg ("\nDownloaded signal reports: " ++ toString st.downloaded.length),
     print_signals st.downloaded]
   else []) ++
  (if st.notDownloaded ≠ [] then
    [.msg "\nNot downloaded reports (due error)", print_signals st.notDownloaded]
   else []) ++
  (if st.downloaded ++ st.notDownloaded = [] then [.msg "\nNo signals available"] else [])

/-- `handle_download(args)`: the batch-processing phase followed, on
normal completion, by the final report printing. -/
def handle_download (srv : Server) (svc : APIService) (new : Option Bool)
    (dirPath : String) (now : PyDateTime) : Ctl DLState :=
  match handleDownloadCore srv svc new dirPath now with
  | .ok st => .ok { st with output := st.output ++ downloadReportOutput st }
  | other => other

/-- The state a run has accumulated when it ends, whichever way it ends. -/
def ctlState {σ : Type} : Ctl σ → σ
  | .ok st => st
  | .exited _ st => st
  | .raised _ st => st

/-- The headers a request carries on the wire. -/
def reqHeaders : Request → Headers
  | .signalsPage _ _ _ h => h
  | .createSignal _ _ h => h
  | .printout _ h => h
  | .fetchUrl _ h => h
  | .storagePost _ _ _ h => h

/-! Concrete fixtures used by witnesses and counterexamples. -/

/-- A client built from a fixed token. -/
def svc0 : APIService := ⟨"TOKEN"⟩

/-- A signal whose report is ready. -/
def sigDone : Signal := ⟨1, "Dr. Smith", "2023-07-29", "Done", false⟩

/-- A signal that is still processing. -/
def sigPending : Signal := ⟨2, "Dr. Johnson", "2023-07-23", "Pending", true⟩

/-- A fixed wall clock with a zero microsecond component. -/
def clock0 : PyDateTime := ⟨2023, 1, 1, 0, 0, 0, 0⟩

/-- A server on which every operation succeeds. -/
def srvBase : Server where
  signalsPage := fun _ _ => ⟨200, 1, [sigDone]⟩
  printout := fun _ => ⟨200, "https://storage.example/r1", "test_signal.pdf"⟩
  createSignal := fun _ _ => ⟨201, [⟨"https://example.com", [("file", "file_data")]⟩]⟩
  fileStatus := fun _ => 200
  storageStatus := fun _ => 204
  write := fun _ => .ok

/-- A server with two listing pages; page 2 reports a different
`x-total-pages` value, which the lister must ignore. -/
def srvTwoPages : Server :=
  { srvBase with
    signalsPage := fun p _ => if p = 1 then ⟨200, 2, [sigDone]⟩ else ⟨200, 9, [sigPending]⟩ }

/-- A server whose listing reports `x-total-pages = 0`. -/
def srvZeroPages : Server :=
  { srvBase with signalsPage := fun _ _ => ⟨200, 0, [sigDone]⟩ }

/-- A server that answers 401 to every listing request. -/
def srv401 : Server :=
  { srvBase with signalsPage := fun _ _ => ⟨401, 0, []⟩ }

/-- A server whose printout endpoint answers 403. -/
def srvPrintout403 : Server :=
  { srvBase with
    signalsPage := fun _ _ => ⟨200, 1, [sigDone, sigPending]⟩
    printout := fun _ => ⟨403, "", ""⟩ }

/-- A server whose printout endpoint answers 401. -/
def srvPrintout401 : Server :=
  { srvBase with printout := fun _ => ⟨401, "", ""⟩ }

/-- A server whose storage urls answer 300 to a fetch. -/
def srvFile300 : Server :=
  { srvBase with fileStatus := fun _ => 300 }

/-- A server whose storage urls answer 404 to a fetch. -/
def srvFile404 : Server :=
  { srvBase with fileStatus := fun _ => 404 }

/-- A server whose disk writes fail with `ENOSPC`. -/
def srvEnospc : Server :=
  { srvBase with
    signalsPage := fun _ _ => ⟨200, 1, [sigDone, sigPending]⟩
    write := fun _ => .osError ENOSPC }

/-- A server whose disk writes fail with `EACCES` (errno 13). -/
def srvEacces : Server :=
  { srvBase with write := fun _ => .osError 13 }

/-- A server that answers 401 to create-signal requests. -/
def srvCreate401 : Server :=
  { srvBase with createSignal := fun _ _ => ⟨401, []⟩ }

/-- The open file handle `handle_upload` receives. -/
def file0 : PyFile := ⟨"/home/user/signal_file.pdf", 7⟩

/-! Shared lemmas. -/

/-- When every page in `ps` answers 200, the page loop requests exactly the
pages of `ps` in order and yields their bodies, ignoring their
`x-total-pages` headers. -/
theorem pages_loop_all_ok (srv : Server) (svc : APIService) (new : Option Bool)
    (ps : List Nat)
    (h : ∀ p ∈ ps, (srv.signalsPage p (newParamOf new)).status = 200) :
    pages_loop srv svc new ps =
      ⟨ps.map (fun p => Request.signalsPage p PER_PAGE (newParamOf new) (sessionHeaders svc)),
       ps.map (fun p => (srv.signalsPage p (newParamOf new)).body),
       none⟩ := by
  induction ps with
  | nil => rfl
  | cons p ps ih =>
    have hp := h p (List.mem_cons_self p ps)
    have hps := ih (fun q hq => h q (List.mem_cons_of_mem p hq))
    simp only [pages_loop, get_signals_page, hp, hps]
    simp

/-- A page answering 401 makes `_get_signals_page` raise
`AccessDeniedError` after issuing its one request. -/
theorem get_signals_page_401 (srv : Server) (svc : APIService) (page : Nat)
    (new : Option Bool) (h : (srv.signalsPage page (newParamOf new)).status = 401) :
    get_signals_page srv svc page new =
      (Request.signalsPage page PER_PAGE (newParamOf new) (sessionHeaders svc),
       .error .accessDenied) := by
  simp only [get_signals_page, h]
  simp

/-- A page answering 200 makes `_get_signals_page` return the header value
and the body after issuing its one request. -/
theorem get_signals_page_200 (srv : Server) (svc : APIService) (page : Nat)
    (new : Option Bool) (h : (srv.signalsPage page (newParamOf new)).status = 200) :
    get_signals_page srv svc page new =
      (Request.signalsPage page PER_PAGE (newParamOf new) (sessionHeaders svc),
       .ok ((srv.signalsPage page (newParamOf new)).totalPages,
            (srv.signalsPage page (newParamOf new)).body)) := by
  simp only [get_signals_page, h]
  simp

/-! Claim C1. -/

/-- C1, counterexample: on a server whose first page reports
`x-total-pages = 0`, the lister still issues one page request and still
yields one batch, not the zero requests / zero batches the claim asks for
at `k = 0`. -/
theorem C1_zero_total_pages_counterexample :
    (get_list_signals_batches srvZeroPages svc0 none).requests.length = 1 ∧
    (get_list_signals_batches srvZeroPages svc0 none).yielded.length = 1 ∧
    (get_list_signals_batches srvZeroPages svc0 none).requests.length ≠ 0 := by
  decide

/-- C1 (amended): for every server whose pages `1..k` answer 200 and whose
first page reports total-page count `k ≥ 1`, the lister issues exactly the
`k` page requests `1..k` in increasing order and yields exactly their `k`
bodies in that order, with the loop bound taken from page 1's header only
(later responses' headers are left unconstrained by the hypotheses, hence
ignored); when the first page reports `k = 0` the lister still issues the
page-1 request and yields page 1's body as its single batch. -/
theorem C1_lister_visits_pages_in_order :
    (∀ (srv : Server) (svc : APIService) (new : Option Bool) (k : Nat),
      1 ≤ k →
      (∀ p ∈ List.range' 1 k, (srv.signalsPage p (newParamOf new)).status = 200) →
      (srv.signalsPage 1 (newParamOf new)).totalPages = k →
      get_list_signals_batches srv svc new =
        ⟨(List.range' 1 k).map
            (fun p => Request.signalsPage p PER_PAGE (newParamOf new) (sessionHeaders svc)),
         (List.range' 1 k).map (fun p => (srv.signalsPage p (newParamOf new)).body),
         none⟩) ∧
    (∀ (srv : Server) (svc : APIService) (new : Option Bool),
      (srv.signalsPage 1 (newParamOf new)).status = 200 →
      (srv.signalsPage 1 (newParamOf new)).totalPages = 0 →
      get_list_signals_batches srv svc new =
        ⟨[Request.signalsPage 1 PER_PAGE (newParamOf new) (sessionHeaders svc)],
         [(srv.signalsPage 1 (newParamOf new)).body],
         none⟩) := by
  constructor
  · intro srv svc new k hk hstatus htotal
    obtain ⟨m, rfl⟩ : ∃ m, k = m + 1 := ⟨k - 1, (Nat.succ_pred_eq_of_pos hk).symm⟩
    have h1 : (srv.signalsPage 1 (newParamOf new)).status = 200 := by
      refine hstatus 1 ?_
      simp [List.mem_range'_1]
    have hrest : ∀ p ∈ List.range' 2 m, (srv.signalsPage p (newParamOf new)).status = 200 := by
      intro p hp
      refine hstatus p ?_
      rw [List.mem_range'_1] at hp ⊢
      omega
    simp only [get_list_signals_batches, get_signals_page_200 srv svc 1 new h1, htotal,
      Nat.add_sub_cancel, pages_loop_all_ok srv svc new _ hrest]
    rw [List.range'_succ]
    simp
  · intro srv svc new h1 htotal
    simp only [get_list_signals_batches, get_signals_page_200 srv svc 1 new h1, htotal]
    simp [pages_loop]

/-- C1, witness: on a concrete two-page server whose second page reports a
different `x-total-pages`, the lister issues exactly the requests for
pages 1 and 2 and yields their two bodies. -/
theorem C1_lister_visits_pages_in_order_witness :
    get_list_signals_batches srvTwoPages svc0 none =
      ⟨[Request.signalsPage 1 PER_PAGE none (sessionHeaders svc0),
        Request.signalsPage 2 PER_PAGE none (sessionHeaders svc0)],
       [[sigDone], [sigPending]],
       none⟩ := by
  have h := C1_lister_visits_pages_in_order.1 srvTwoPages svc0 none 2 (by decide)
    (by decide) (by decide)
  rw [h]
  decide

/-! Claim C2. -/

/-- C2: when the request for page 1 answers 401, the auth-handled batch
iterator yields zero batches, prints the invalid-token message and exits
with status 1 after having issued only the page-1 request (in particular
no page-2 request is ever issued), and the download orchestrator driven by
it terminates the same way. -/
theorem C2_first_page_401_fatal (srv : Server) (svc : APIService) (new : Option Bool)
    (dirPath : String) (now : PyDateTime)
    (h : (srv.signalsPage 1 (newParamOf new)).status = 401) :
    get_list_signals_batches_auth_handled srv svc new =
      ⟨[Request.signalsPage 1 PER_PAGE (newParamOf new) (sessionHeaders svc)],
       [], [.msg INVALUD_TOKEN_MESSAGE], .exited 1 ()⟩ ∧
    (∀ (np : Option Bool) (hs : Headers),
      Request.signalsPage 2 PER_PAGE np hs ∉
        (get_list_signals_batches_auth_handled srv svc new).requests) ∧
    handle_download srv svc new dirPath now =
      .exited 1 ⟨[Request.signalsPage 1 PER_PAGE (newParamOf new) (sessionHeaders svc)],
                 [.msg INVALUD_TOKEN_MESSAGE], [], []⟩ := by
  have hg : get_list_signals_batches srv svc new =
      ⟨[Request.signalsPage 1 PER_PAGE (newParamOf new) (sessionHeaders svc)], [],
       some .accessDenied⟩ := by
    simp only [get_list_signals_batches, get_signals_page_401 srv svc 1 new h]
  refine ⟨?_, ?_, ?_⟩
  · simp [get_list_signals_batches_auth_handled, hg]
  · intro np hs
    simp [get_list_signals_batches_auth_handled, hg]
  · simp [handle_download, handleDownloadCore, fetchAndProcessPage,
      get_signals_page_401 srv svc 1 new h]

/-- C2, witness: the concrete always-401 server makes the iterator and the
download flow behave exactly as claimed. -/
theorem C2_first_page_401_fatal_witness :
    get_list_signals_batches_auth_handled srv401 svc0 none =
      ⟨[Request.signalsPage 1 PER_PAGE none (sessionHeaders svc0)], [],
       [.msg INVALUD_TOKEN_MESSAGE], .exited 1 ()⟩ ∧
    handle_download srv401 svc0 none "/downloads" clock0 =
      .exited 1 ⟨[Request.signalsPage 1 PER_PAGE none (sessionHeaders svc0)],
                 [.msg INVALUD_TOKEN_MESSAGE], [], []⟩ :=
  ⟨(C2_first_page_401_fatal srv401 svc0 none "/downloads" clock0 (by decide)).1,
   (C2_first_page_401_fatal srv401 svc0 none "/downloads" clock0 (by decide)).2.2⟩

/-! Claim C3. -/

/-- C3: a signal whose status is outside `{"Warning", "Done"}` is appended
to the not-downloaded list with the request log unchanged (no printout or
any other network call is made for it), the step returns normally, and the
batch loop continues with the remaining signals. -/
theorem C3_not_ready_skipped (srv : Server) (svc : APIService) (dirPath : String)
    (now : PyDateTime) (st : DLState) (s : Signal) (rest : List Signal)
    (h : s.status ∉ (["Warning", "Done"] : List String)) :
    processSignal srv svc dirPath now st s =
      .ok { st with notDownloaded := st.notDownloaded ++ [s] } ∧
    processBatch srv svc dirPath now st (s :: rest) =
      processBatch srv svc dirPath now
        { st with notDownloaded := st.notDownloaded ++ [s] } rest := by
  have h1 : processSignal srv svc dirPath now st s =
      .ok { st with notDownloaded := st.notDownloaded ++ [s] } := by
    simp [processSignal, h]
  exact ⟨h1, by simp [processBatch, h1]⟩

/-- C3, witness: a concrete pending signal is skipped without any request
and the batch loop moves on. -/
theorem C3_not_ready_skipped_witness :
    processSignal srvBase svc0 "/downloads" clock0 ⟨[], [], [], []⟩ sigPending =
      .ok ⟨[], [], [], [sigPending]⟩ :=
  (C3_not_ready_skipped srvBase svc0 "/downloads" clock0 ⟨[], [], [], []⟩ sigPending []
    (by decide)).1

/-! More shared lemmas: equation lemmas for the printout request and
monotonicity of the not-downloaded accumulator. -/

/-- A page answering neither 401 nor 200 makes `_get_signals_page` raise
`NotImplementedError` after issuing its one request. -/
theorem get_signals_page_other (srv : Server) (svc : APIService) (page : Nat)
    (new : Option Bool) (h401 : (srv.signalsPage page (newParamOf new)).status ≠ 401)
    (h200 : (srv.signalsPage page (newParamOf new)).status ≠ 200) :
    get_signals_page srv svc page new =
      (Request.signalsPage page PER_PAGE (newParamOf new) (sessionHeaders svc),
       .error .notImplemented) := by
  simp only [get_signals_page, h401, h200]
  simp [h401, h200]

/-- A printout endpoint answering 403 makes `request_printout` raise
`NotVisitedBeforeViaPortalError` after issuing its one request. -/
theorem request_printout_403 (srv : Server) (svc : APIService) (signalId : Int)
    (h : (srv.printout signalId).status = 403) :
    request_printout srv svc signalId =
      (Request.printout signalId (sessionHeaders svc), .error .notVisitedBeforeViaPortal) := by
  simp only [request_printout, h]
  simp

/-- A printout endpoint answering 401 makes `request_printout` raise
`AccessDeniedError` after issuing its one request. -/
theorem request_printout_401 (srv : Server) (svc : APIService) (signalId : Int)
    (h : (srv.printout signalId).status = 401) :
    request_printout srv svc signalId =
      (Request.printout signalId (sessionHeaders svc), .error .accessDenied) := by
  simp only [request_printout, h]
  simp

/-- A printout endpoint answering 200 makes `request_printout` return the
descriptor after issuing its one request. -/
theorem request_printout_200 (srv : Server) (svc : APIService) (signalId : Int)
    (h : (srv.printout signalId).status = 200) :
    request_printout srv svc signalId =
      (Request.printout signalId (sessionHeaders svc), .ok (srv.printout signalId)) := by
  simp only [request_printout, h]
  simp

/-- A ready signal whose printout request answers 403 is appended to the
not-downloaded list, the message is printed, and the step returns
normally. -/
theorem processSignal_notVisited (srv : Server) (svc : APIService) (dirPath : String)
    (now : PyDateTime) (st : DLState) (s : Signal)
    (hready : s.status ∈ (["Warning", "Done"] : List String))
    (h403 : (srv.printout s.id).status = 403) :
    processSignal srv svc dirPath now st s =
      .ok { st with requests := st.requests ++ [Request.printout s.id (sessionHeaders svc)],
                    notDownloaded := st.notDownloaded ++ [s],
                    output := st.output ++ [.msg "Not visited by app before"] } := by
  simp [processSignal, hready, request_printout_403 srv svc s.id h403]

/-- Processing one signal never removes anything from the not-downloaded
accumulator, whichever way the step ends. -/
theorem processSignal_notDownloaded_mono (srv : Server) (svc : APIService)
    (dirPath : String) (now : PyDateTime) (st : DLState) (s : Signal) (x : Signal)
    (hx : x ∈ st.notDownloaded) :
    x ∈ (ctlState (processSignal srv svc dirPath now st s)).notDownloaded := by
  simp only [processSignal]
  repeat' split
  all_goals simp [ctlState, hx]

/-- Processing a batch never removes anything from the not-downloaded
accumulator. -/
theorem processBatch_notDownloaded_mono (srv : Server) (svc : APIService)
    (dirPath : String) (now : PyDateTime) (batch : List Signal) :
    ∀ (st : DLState) (x : Signal), x ∈ st.notDownloaded →
      x ∈ (ctlState (processBatch srv svc dirPath now st batch)).notDownloaded := by
  induction batch with
  | nil => intro st x hx; simpa [processBatch, ctlState] using hx
  | cons s rest ih =>
    intro st x hx
    have hstep := processSignal_notDownloaded_mono srv svc dirPath now st s x hx
    simp only [processBatch]
    cases hps : processSignal srv svc dirPath now st s with
    | ok st' =>
      rw [hps] at hstep
      exact ih st' x hstep
    | exited c st' => rw [hps] at hstep; simpa [ctlState] using hstep
    | raised e st' => rw [hps] at hstep; simpa [ctlState] using hstep

/-- Fetching and processing one page never removes anything from the
not-downloaded accumulator. -/
theorem fetchAndProcessPage_notDownloaded_mono (srv : Server) (svc : APIService)
    (new : Option Bool) (dirPath : String) (now : PyDateTime) (st : DLState)
    (page : Nat) (x : Signal) (hx : x ∈ st.notDownloaded) :
    x ∈ (ctlState (fetchAndProcessPage srv svc new dirPath now st page)).1.notDownloaded := by
  by_cases h401 : (srv.signalsPage page (newParamOf new)).status = 401
  · simp [fetchAndProcessPage, get_signals_page_401 srv svc page new h401, ctlState, hx]
  · by_cases h200 : (srv.signalsPage page (newParamOf new)).status = 200
    · have hb := processBatch_notDownloaded_mono srv svc dirPath now
        (srv.signalsPage page (newParamOf new)).body
        { st with requests := st.requests ++
            [Request.signalsPage page PER_PAGE (newParamOf new) (sessionHeaders svc)] } x
        (by simpa using hx)
      simp only [fetchAndProcessPage, get_signals_page_200 srv svc page new h200]
      cases hpb : processBatch srv svc dirPath now
          { st with requests := st.requests ++
              [Request.signalsPage page PER_PAGE (newParamOf new) (sessionHeaders svc)] }
          (srv.signalsPage page (newParamOf new)).body with
      | ok st2 => rw [hpb] at hb; simpa [ctlState] using hb
      | exited c st2 => rw [hpb] at hb; simpa [ctlState] using hb
      | raised e st2 => rw [hpb] at hb; simpa [ctlState] using hb
    · simp [fetchAndProcessPage, get_signals_page_other srv svc page new h401 h200,
        ctlState, hx]

/-- The page loop never removes anything from the not-downloaded
accumulator. -/
theorem downloadPagesLoop_notDownloaded_mono (srv : Server) (svc : APIService)
    (new : Option Bool) (dirPath : String) (now : PyDateTime) (ps : List Nat) :
    ∀ (st : DLState) (x : Signal), x ∈ st.notDownloaded →
      x ∈ (ctlState (downloadPagesLoop srv svc new dirPath now st ps)).notDownloaded := by
  induction ps with
  | nil => intro st x hx; simpa [downloadPagesLoop, ctlState] using hx
  | cons p ps ih =>
    intro st x hx
    have hstep := fetchAndProcessPage_notDownloaded_mono srv svc new dirPath now st p x hx
    simp only [downloadPagesLoop]
    cases hfp : fetchAndProcessPage srv svc new dirPath now st p with
    | ok pr => rw [hfp] at hstep; exact ih pr.1 x hstep
    | exited c pr => rw [hfp] at hstep; simpa [ctlState] using hstep
    | raised e pr => rw [hfp] at hstep; simpa [ctlState] using hstep

/-- Unfolding `handleDownloadCore` on a 200 first page: the run is the
processing of page 1's batch followed, on normal continuation, by the loop
over the remaining pages. -/
theorem handleDownloadCore_eq_of_200 (srv : Server) (svc : APIService)
    (new : Option Bool) (dirPath : String) (now : PyDateTime)
    (h200 : (srv.signalsPage 1 (newParamOf new)).status = 200) :
    handleDownloadCore srv svc new dirPath now =
      (match processBatch srv svc dirPath now
          ⟨[Request.signalsPage 1 PER_PAGE (newParamOf new) (sessionHeaders svc)], [], [], []⟩
          (srv.signalsPage 1 (newParamOf new)).body with
       | .ok st2 => downloadPagesLoop srv svc new dirPath now st2
           (List.range' 2 ((srv.signalsPage 1 (newParamOf new)).totalPages - 1))
       | .exited c st2 => .exited c st2
       | .raised e st2 => .raised e st2) := by
  simp only [handleDownloadCore, fetchAndProcessPage, get_signals_page_200 srv svc 1 new h200,
    List.nil_append]
  cases hb : processBatch srv svc dirPath now
      ⟨[Request.signalsPage 1 PER_PAGE (newParamOf new) (sessionHeaders svc)], [], [], []⟩
      (srv.signalsPage 1 (newParamOf new)).body <;> rfl

/-- Whatever survives page 1's batch processing in the not-downloaded
accumulator is still there when the whole download run ends. -/
theorem handle_download_notDownloaded_of_batch (srv : Server) (svc : APIService)
    (new : Option Bool) (dirPath : String) (now : PyDateTime) (x : Signal)
    (h200 : (srv.signalsPage 1 (newParamOf new)).status = 200)
    (hx : x ∈ (ctlState (processBatch srv svc dirPath now
      ⟨[Request.signalsPage 1 PER_PAGE (newParamOf new) (sessionHeaders svc)], [], [], []⟩
      (srv.signalsPage 1 (newParamOf new)).body)).notDownloaded) :
    x ∈ (ctlState (handle_download srv svc new dirPath now)).notDownloaded := by
  have hcore : x ∈ (ctlState (handleDownloadCore srv svc new dirPath now)).notDownloaded := by
    rw [handleDownloadCore_eq_of_200 srv svc new dirPath now h200]
    cases hb : processBatch srv svc dirPath now
        ⟨[Request.signalsPage 1 PER_PAGE (newParamOf new) (sessionHeaders svc)], [], [], []⟩
        (srv.signalsPage 1 (newParamOf new)).body with
    | ok st2 =>
      rw [hb] at hx
      exact downloadPagesLoop_notDownloaded_mono srv svc new dirPath now _ st2 x hx
    | exited c st2 => rw [hb] at hx; simpa [ctlState] using hx
    | raised e st2 => rw [hb] at hx; simpa [ctlState] using hx
  simp only [handle_download]
  cases hc : handleDownloadCore srv svc new dirPath now <;>
    rw [hc] at hcore <;> simpa [ctlState] using hcore

/-- When the download run completes normally with a nonempty
not-downloaded list, its table is printed. -/
theorem handle_download_ok_prints_table (srv : Server) (svc : APIService)
    (new : Option Bool) (dirPath : String) (now : PyDateTime) (stF : DLState)
    (hok : handle_download srv svc new dirPath now = .ok stF)
    (hne : stF.notDownloaded ≠ []) :
    print_signals stF.notDownloaded ∈ stF.output := by
  simp only [handle_download] at hok
  cases hc : handleDownloadCore srv svc new dirPath now with
  | ok st =>
    rw [hc] at hok
    simp only [Ctl.ok.injEq] at hok
    subst hok
    simp only [downloadReportOutput, print_signals] at *
    simp [hne]
  | exited c st => rw [hc] at hok; simp at hok
  | raised e st => rw [hc] at hok; simp at hok

/-! Claim C4. -/

/-- C4: a ready signal whose printout request answers 403 is classified as
not-downloaded with an informational message, no exception escapes its
processing step (the step returns normally and the batch loop continues
with the next signal), the signal is in the not-downloaded list of the
final state however the run ends, and when the run completes normally the
not-downloaded table containing it is printed. -/
theorem C4_printout_403_skips_and_continues (srv : Server) (svc : APIService)
    (new : Option Bool) (dirPath : String) (now : PyDateTime) (s : Signal)
    (rest : List Signal)
    (hready : s.status ∈ (["Warning", "Done"] : List String))
    (h403 : (srv.printout s.id).status = 403)
    (h200 : (srv.signalsPage 1 (newParamOf new)).status = 200)
    (hbody : (srv.signalsPage 1 (newParamOf new)).body = s :: rest) :
    (∀ st : DLState,
      processSignal srv svc dirPath now st s =
        .ok { st with
              requests := st.requests ++ [Request.printout s.id (sessionHeaders svc)],
              notDownloaded := st.notDownloaded ++ [s],
              output := st.output ++ [.msg "Not visited by app before"] }) ∧
    (∀ st : DLState,
      processBatch srv svc dirPath now st (s :: rest) =
        processBatch srv svc dirPath now
          { st with
            requests := st.requests ++ [Request.printout s.id (sessionHeaders svc)],
            notDownloaded := st.notDownloaded ++ [s],
            output := st.output ++ [.msg "Not visited by app before"] } rest) ∧
    s ∈ (ctlState (handle_download srv svc new dirPath now)).notDownloaded ∧
    (∀ stF : DLState, handle_download srv svc new dirPath now = .ok stF →
      s ∈ stF.notDownloaded ∧ print_signals stF.notDownloaded ∈ stF.output) := by
  have hsig := fun st => processSignal_notVisited srv svc dirPath now st s hready h403
  have hbatch : ∀ st : DLState,
      processBatch srv svc dirPath now st (s :: rest) =
        processBatch srv svc dirPath now
          { st with
            requests := st.requests ++ [Request.printout s.id (sessionHeaders svc)],
            notDownloaded := st.notDownloaded ++ [s],
            output := st.output ++ [.msg "Not visited by app before"] } rest := by
    intro st
    simp [processBatch, hsig st]
  have hmem : s ∈ (ctlState (handle_download srv svc new dirPath now)).notDownloaded := by
    refine handle_download_notDownloaded_of_batch srv svc new dirPath now s h200 ?_
    rw [hbody, hbatch]
    exact processBatch_notDownloaded_mono srv svc dirPath now rest _ s (by simp)
  refine ⟨hsig, hbatch, hmem, ?_⟩
  intro stF hok
  have hsF : s ∈ stF.notDownloaded := by
    have := hmem
    rw [hok] at this
    simpa [ctlState] using this
  exact ⟨hsF, handle_download_ok_prints_table srv svc new dirPath now stF hok
    (by intro hnil; rw [hnil] at hsF; simp at hsF)⟩

/-- C4, witness: on the concrete 403-printout server with batch
`[sigDone, sigPending]`, the ready signal is classified not-downloaded
without an exception and appears in the printed not-downloaded table. -/
theorem C4_printout_403_skips_and_continues_witness :
    processSignal srvPrintout403 svc0 "/downloads" clock0 ⟨[], [], [], []⟩ sigDone =
      .ok ⟨[Request.printout 1 (sessionHeaders svc0)],
           [.msg "Not visited by app before"], [], [sigDone]⟩ ∧
    sigDone ∈ (ctlState (handle_download srvPrintout403 svc0 none "/downloads" clock0)).notDownloaded := by
  have h := C4_printout_403_skips_and_continues srvPrintout403 svc0 none "/downloads" clock0
    sigDone [sigPending] (by decide) (by decide) (by decide) (by decide)
  refine ⟨?_, h.2.2.1⟩
  rw [h.1 ⟨[], [], [], []⟩]
  decide

/-! Claim C5. -/

/-- C5, counterexample: at a clock whose microsecond component is 1,
`datetime.now().isoformat()` carries the microsecond fraction, so the
derived name is not the seconds-precision one the claim states for that
clock. -/
theorem C5_microsecond_precision_counterexample :
    get_local_filename "test.pdf" ⟨2023, 1, 1, 0, 0, 0, 1⟩ =
      "test-2023-01-01T00:00:00.000001.pdf" ∧
    get_local_filename "test.pdf" ⟨2023, 1, 1, 0, 0, 0, 1⟩ ≠
      "test-2023-01-01T00:00:00.pdf" := by
  decide

/-- C5 (amended): `get_local_filename` is a pure function of the base name
and the clock that strips the extension, appends a hyphen plus the clock's
Python default `isoformat()` rendering — ISO-8601 with no timezone offset,
at seconds precision when the microsecond component is zero and at
microseconds precision otherwise — and reattaches the original extension;
deriving `"test.pdf"` at clock 2023-01-01T00:00:00 (microsecond 0) yields
`"test-2023-01-01T00:00:00.pdf"`, and a name with no extension yields a
result with nothing reattached after the timestamp. -/
theorem C5_get_local_filename_pure :
    (∀ (base : String) (now : PyDateTime),
      get_local_filename base now = pyStem base ++ "-" ++ pyIsoformat now ++ pySuffix base) ∧
    (∀ now : PyDateTime, now.microsecond = 0 →
      pyIsoformat now =
        padZero 4 now.year ++ "-" ++ padZero 2 now.month ++ "-" ++ padZero 2 now.day ++
          "T" ++ padZero 2 now.hour ++ ":" ++ padZero 2 now.minute ++ ":" ++
          padZero 2 now.second) ∧
    get_local_filename "test.pdf" clock0 = "test-2023-01-01T00:00:00.pdf" ∧
    (∀ (base : String) (now : PyDateTime), pySuffix base = "" →
      get_local_filename base now = pyStem base ++ "-" ++ pyIsoformat now) := by
  refine ⟨fun base now => rfl, ?_, by decide, ?_⟩
  · intro now h
    simp [pyIsoformat, h]
  · intro base now h
    rw [get_local_filename, h]
    simp

/-- C5, witness: deriving a name with no extension at the fixed clock
appends only the hyphen and timestamp. -/
theorem C5_get_local_filename_pure_witness :
    get_local_filename "README" clock0 = "README-2023-01-01T00:00:00" :=
  (C5_get_local_filename_pure.2.2.2 "README" clock0 (by decide)).trans (by decide)

/-! More shared lemmas: equation lemmas for create-signal. -/

/-- A create endpoint answering 401 makes `create_new_signal` raise
`AccessDeniedError` after issuing its one request. -/
theorem create_new_signal_401 (srv : Server) (svc : APIService) (name fileName : String)
    (h : (srv.createSignal name fileName).status = 401) :
    create_new_signal srv svc name fileName =
      (Request.createSignal name fileName (sessionHeaders svc), .error .accessDenied) := by
  simp only [create_new_signal, h]
  simp

/-- A create endpoint answering 201 makes `create_new_signal` return the
body after issuing its one request. -/
theorem create_new_signal_201 (srv : Server) (svc : APIService) (name fileName : String)
    (h : (srv.createSignal name fileName).status = 201) :
    create_new_signal srv svc name fileName =
      (Request.createSignal name fileName (sessionHeaders svc),
       .ok (srv.createSignal name fileName)) := by
  simp only [create_new_signal, h]
  simp

/-- A create endpoint answering neither 401 nor 201 makes
`create_new_signal` raise `NotImplementedError`. -/
theorem create_new_signal_other (srv : Server) (svc : APIService) (name fileName : String)
    (h401 : (srv.createSignal name fileName).status ≠ 401)
    (h201 : (srv.createSignal name fileName).status ≠ 201) :
    create_new_signal srv svc name fileName =
      (Request.createSignal name fileName (sessionHeaders svc), .error .notImplemented) := by
  simp only [create_new_signal]
  simp [h401, h201]

/-! Claim C6. -/

/-- C6, counterexample: a 401 on the printout request during the download
flow is not caught anywhere — `handle_download` ends with the propagating
`AccessDeniedError` and the invalid-token message is never printed, so the
claim that every 401 reaches the orchestration boundary as a printed
invalid-token message with a clean non-zero exit is false. -/
theorem C6_printout_401_unhandled_counterexample :
    handle_download srvPrintout401 svc0 none "/downloads" clock0 =
      .raised .accessDenied
        ⟨[Request.signalsPage 1 PER_PAGE none (sessionHeaders svc0),
          Request.printout 1 (sessionHeaders svc0)], [], [], []⟩ ∧
    OutLine.msg INVALUD_TOKEN_MESSAGE ∉
      (ctlState (handle_download srvPrintout401 svc0 none "/downloads" clock0)).output := by
  decide

/-- C6 (amended): a 401 from the primary API is always fatal, but along two
different paths: on the page-listing requests of any flow and on
create-signal during upload, the process prints the fixed invalid-token
message and exits with status 1; on the printout request during download,
the `AccessDeniedError` is caught nowhere and propagates out of the
orchestrator as an unhandled exception, without the invalid-token
message. -/
theorem C6_access_denied_fatal (srv : Server) (svc : APIService) (new : Option Bool)
    (filePath : PyFile) (name : String) (dirPath : String) (now : PyDateTime)
    (st : DLState) (s : Signal) :
    ((get_list_signals_batches srv svc new).error = some .accessDenied →
      (get_list_signals_batches_auth_handled srv svc new).outcome = .exited 1 () ∧
      OutLine.msg INVALUD_TOKEN_MESSAGE ∈
        (get_list_signals_batches_auth_handled srv svc new).output) ∧
    ((srv.signalsPage 1 (newParamOf none)).status = 401 →
      handle_list srv svc =
        .exited 1 ⟨[Request.signalsPage 1 PER_PAGE (newParamOf none) (sessionHeaders svc)],
                   [.msg INVALUD_TOKEN_MESSAGE]⟩) ∧
    ((srv.createSignal name (osPathBasename filePath.name)).status = 401 →
      handle_upload srv svc filePath name =
        .exited 1 ⟨[Request.createSignal name (osPathBasename filePath.name)
                      (sessionHeaders svc)],
                   [.msg INVALUD_TOKEN_MESSAGE]⟩) ∧
    (s.status ∈ (["Warning", "Done"] : List String) →
      (srv.printout s.id).status = 401 →
      processSignal srv svc dirPath now st s =
        .raised .accessDenied
          { st with requests := st.requests ++ [Request.printout s.id (sessionHeaders svc)] }) := by
  refine ⟨?_, ?_, ?_, ?_⟩
  · intro herr
    simp [get_list_signals_batches_auth_handled, herr]
  · intro h401
    have hg : get_list_signals_batches srv svc none =
        ⟨[Request.signalsPage 1 PER_PAGE (newParamOf none) (sessionHeaders svc)], [],
         some .accessDenied⟩ := by
      simp only [get_list_signals_batches, get_signals_page_401 srv svc 1 none h401]
    simp [handle_list, get_list_signals_batches_auth_handled, hg]
  · intro h401
    simp [handle_upload,
      create_new_signal_401 srv svc name (osPathBasename filePath.name) h401]
  · intro hready h401
    simp [processSignal, hready, request_printout_401 srv svc s.id h401]

/-- C6, witness: the three paths at concrete servers — listing 401 exits
with the message in `handle_list`, create-signal 401 exits with the
message in `handle_upload`, and printout 401 propagates out of the
download step without it. -/
theorem C6_access_denied_fatal_witness :
    handle_list srv401 svc0 =
      .exited 1 ⟨[Request.signalsPage 1 PER_PAGE none (sessionHeaders svc0)],
                 [.msg INVALUD_TOKEN_MESSAGE]⟩ ∧
    handle_upload srvCreate401 svc0 file0 "name" =
      .exited 1 ⟨[Request.createSignal "name" "signal_file.pdf" (sessionHeaders svc0)],
                 [.msg INVALUD_TOKEN_MESSAGE]⟩ ∧
    processSignal srvPrintout401 svc0 "/downloads" clock0 ⟨[], [], [], []⟩ sigDone =
      .raised .accessDenied ⟨[Request.printout 1 (sessionHeaders svc0)], [], [], []⟩ := by
  refine ⟨?_, ?_, ?_⟩
  · exact (C6_access_denied_fatal srv401 svc0 none file0 "name" "/downloads" clock0
      ⟨[], [], [], []⟩ sigDone).2.1 (by decide)
  · have h := (C6_access_denied_fatal srvCreate401 svc0 none file0 "name" "/downloads" clock0
      ⟨[], [], [], []⟩ sigDone).2.2.1 (by decide)
    rw [h]
    decide
  · have h := (C6_access_denied_fatal srvPrintout401 svc0 none file0 "name" "/downloads" clock0
      ⟨[], [], [], []⟩ sigDone).2.2.2 (by decide) (by decide)
    rw [h]
    decide

/-! Claim C7. -/

/-- C7, counterexample: `get_file` tests `response.ok`, which is status
< 400, so a 300 response — not a 2xx — is returned as an open stream
instead of raising the unclassified fatal condition the claim requires for
every non-2xx status. -/
theorem C7_get_file_3xx_counterexample :
    (get_file srvFile300 "https://storage.example/r1").2 = .ok 300 ∧
    (get_file srvFile300 "https://storage.example/r1").2 ≠ .error .notImplemented := by
  refine ⟨rfl, ?_⟩
  intro hcontra
  rw [show (get_file srvFile300 "https://storage.example/r1").2 = .ok 300 from rfl] at hcontra
  exact Except.noConfusion hcontra

/-- C7 (amended): `get_file` returns the open response stream exactly when
the response is ok in the `requests` sense — status strictly below 400,
which admits 3xx as well as 2xx — and raises the unclassified fatal
`NotImplementedError` for every status of 400 and above, after issuing the
one plain fetch request. -/
theorem C7_get_file_ok_below_400 (srv : Server) (url : String) :
    (respOk (srv.fileStatus url) = true → (get_file srv url).2 = .ok (srv.fileStatus url)) ∧
    (respOk (srv.fileStatus url) = false → (get_file srv url).2 = .error .notImplemented) ∧
    (respOk (srv.fileStatus url) = true ↔ srv.fileStatus url < 400) ∧
    (get_file srv url).1 = Request.fetchUrl url [] := by
  refine ⟨?_, ?_, ?_, rfl⟩
  · intro h
    simp [get_file, h]
  · intro h
    simp [get_file, h]
  · simp [respOk]

/-- C7, witness: a 200 response is returned as a stream and a 404 response
raises the unclassified fatal condition. -/
theorem C7_get_file_ok_below_400_witness :
    (get_file srvBase "https://storage.example/r1").2 = .ok 200 ∧
    (get_file srvFile404 "https://storage.example/r1").2 = .error .notImplemented :=
  ⟨(C7_get_file_ok_below_400 srvBase "https://storage.example/r1").1 (by decide),
   (C7_get_file_ok_below_400 srvFile404 "https://storage.example/r1").2.1 (by decide)⟩

/-! Claim C8. -/

/-- C8: during the download write, `ENOSPC` is distinguished from every
other `OSError`: the write loop re-raises `ENOSPC` as `DiskFullError` and
re-raises any other errno unchanged; at the orchestration level an
`ENOSPC` on a signal's write prints the disk-full message and exits with
status 1 on the spot — the rest of the batch is never processed and no
report is printed — while any other errno propagates as an uncaught
`OSError` with no disk-full message added to the output. -/
theorem C8_enospc_aborts (srv : Server) (svc : APIService) (new : Option Bool)
    (url dirPath fileName : String) (now : PyDateTime) (st : DLState) (s : Signal)
    (rest : List Signal) (e : Nat) :
    (respOk (srv.fileStatus url) = true →
      srv.write (osPathJoin dirPath fileName) = .osError ENOSPC →
      download_file_with_progress_bar srv url dirPath fileName =
        (Request.fetchUrl url [], .error .diskFull)) ∧
    (respOk (srv.fileStatus url) = true → e ≠ ENOSPC →
      srv.write (osPathJoin dirPath fileName) = .osError e →
      download_file_with_progress_bar srv url dirPath fileName =
        (Request.fetchUrl url [], .error (.osError e))) ∧
    (s.status ∈ (["Warning", "Done"] : List String) →
      (srv.printout s.id).status = 200 →
      respOk (srv.fileStatus (srv.printout s.id).url) = true →
      srv.write (osPathJoin dirPath (get_local_filename (srv.printout s.id).name now)) =
        .osError ENOSPC →
      processBatch srv svc dirPath now st (s :: rest) =
        .exited 1 { st with
          requests := st.requests ++ [Request.printout s.id (sessionHeaders svc),
                                      Request.fetchUrl (srv.printout s.id).url []],
          output := st.output ++ [.msg "Disk full, can't download"] }) ∧
    (s.status ∈ (["Warning", "Done"] : List String) →
      (srv.printout s.id).status = 200 →
      respOk (srv.fileStatus (srv.printout s.id).url) = true →
      e ≠ ENOSPC →
      srv.write (osPathJoin dirPath (get_local_filename (srv.printout s.id).name now)) =
        .osError e →
      processBatch srv svc dirPath now st (s :: rest) =
        .raised (.osError e) { st with
          requests := st.requests ++ [Request.printout s.id (sessionHeaders svc),
                                      Request.fetchUrl (srv.printout s.id).url []] }) ∧
    ((srv.signalsPage 1 (newParamOf new)).status = 200 →
      (srv.signalsPage 1 (newParamOf new)).body = s :: rest →
      s.status ∈ (["Warning", "Done"] : List String) →
      (srv.printout s.id).status = 200 →
      respOk (srv.fileStatus (srv.printout s.id).url) = true →
      srv.write (osPathJoin dirPath (get_local_filename (srv.printout s.id).name now)) =
        .osError ENOSPC →
      handle_download srv svc new dirPath now =
        .exited 1 ⟨[Request.signalsPage 1 PER_PAGE (newParamOf new) (sessionHeaders svc),
                    Request.printout s.id (sessionHeaders svc),
                    Request.fetchUrl (srv.printout s.id).url []],
                   [.msg "Disk full, can't download"], [], []⟩) := by
  have hdl : ∀ fn : String, respOk (srv.fileStatus url) = true →
      srv.write (osPathJoin dirPath fn) = .osError ENOSPC →
      download_file_with_progress_bar srv url dirPath fn =
        (Request.fetchUrl url [], .error .diskFull) := by
    intro fn hok hw
    simp [download_file_with_progress_bar, get_file, hok, hw]
  have hdl2 : ∀ fn : String, respOk (srv.fileStatus url) = true → e ≠ ENOSPC →
      srv.write (osPathJoin dirPath fn) = .osError e →
      download_file_with_progress_bar srv url dirPath fn =
        (Request.fetchUrl url [], .error (.osError e)) := by
    intro fn hok hne hw
    simp [download_file_with_progress_bar, get_file, hok, hw, hne]
  have hsigFull : ∀ st' : DLState, s.status ∈ (["Warning", "Done"] : List String) →
      (srv.printout s.id).status = 200 →
      respOk (srv.fileStatus (srv.printout s.id).url) = true →
      srv.write (osPathJoin dirPath (get_local_filename (srv.printout s.id).name now)) =
        .osError ENOSPC →
      processSignal srv svc dirPath now st' s =
        .exited 1 { st' with
          requests := st'.requests ++ [Request.printout s.id (sessionHeaders svc),
                                       Request.fetchUrl (srv.printout s.id).url []],
          output := st'.output ++ [.msg "Disk full, can't download"] } := by
    intro st' hready h200 hok hw
    simp [processSignal, hready, request_printout_200 srv svc s.id h200,
      download_file_with_progress_bar, get_file, hok, hw]
  have hsigErr : ∀ st' : DLState, s.status ∈ (["Warning", "Done"] : List String) →
      (srv.printout s.id).status = 200 →
      respOk (srv.fileStatus (srv.printout s.id).url) = true →
      e ≠ ENOSPC →
      srv.write (osPathJoin dirPath (get_local_filename (srv.printout s.id).name now)) =
        .osError e →
      processSignal srv svc dirPath now st' s =
        .raised (.osError e) { st' with
          requests := st'.requests ++ [Request.printout s.id (sessionHeaders svc),
                                       Request.fetchUrl (srv.printout s.id).url []] } := by
    intro st' hready h200 hok hne hw
    simp [processSignal, hready, request_printout_200 srv svc s.id h200,
      download_file_with_progress_bar, get_file, hok, hw, hne]
  refine ⟨hdl fileName, hdl2 fileName, ?_, ?_, ?_⟩
  · intro hready h200 hok hw
    simp [processBatch, hsigFull st hready h200 hok hw]
  · intro hready h200 hok hne hw
    simp [processBatch, hsigErr st hready h200 hok hne hw]
  · intro hp200 hbody hready h200 hok hw
    rw [handle_download, handleDownloadCore_eq_of_200 srv svc new dirPath now hp200, hbody]
    rw [show processBatch srv svc dirPath now
        ⟨[Request.signalsPage 1 PER_PAGE (newParamOf new) (sessionHeaders svc)], [], [], []⟩
        (s :: rest) =
      .exited 1 { DLState.mk
          [Request.signalsPage 1 PER_PAGE (newParamOf new) (sessionHeaders svc)] [] [] [] with
        requests := [Request.signalsPage 1 PER_PAGE (newParamOf new) (sessionHeaders svc)] ++
          [Request.printout s.id (sessionHeaders svc),
           Request.fetchUrl (srv.printout s.id).url []],
        output := ([] : List OutLine) ++ [.msg "Disk full, can't download"] } from by
      rw [processBatch, hsigFull _ hready h200 hok hw]]
    simp

/-- C8, witness: on the concrete `ENOSPC` server the whole download run
exits 1 with the disk-full message after three requests (in particular the
second signal of the batch is never examined), and on the concrete
`EACCES` server the write error propagates as an `OSError`. -/
theorem C8_enospc_aborts_witness :
    handle_download srvEnospc svc0 none "/downloads" clock0 =
      .exited 1 ⟨[Request.signalsPage 1 PER_PAGE none (sessionHeaders svc0),
                  Request.printout 1 (sessionHeaders svc0),
                  Request.fetchUrl "https://storage.example/r1" []],
                 [.msg "Disk full, can't download"], [], []⟩ ∧
    download_file_with_progress_bar srvEacces "https://storage.example/r1" "/downloads"
        "f.pdf" =
      (Request.fetchUrl "https://storage.example/r1" [], .error (.osError 13)) := by
  constructor
  · have h := (C8_enospc_aborts srvEnospc svc0 none "https://storage.example/r1" "/downloads"
      "f.pdf" clock0 ⟨[], [], [], []⟩ sigDone [sigPending] 13).2.2.2.2
      (by decide) (by decide) (by decide) (by decide) (by decide) (by decide)
    rw [h]
    decide
  · exact (C8_enospc_aborts srvEacces svc0 none "https://storage.example/r1" "/downloads"
      "f.pdf" clock0 ⟨[], [], [], []⟩ sigDone [sigPending] 13).2.1
      (by decide) (by decide) (by decide)

/-! Claim C9. -/

/-- C9: when create-signal succeeds (201), the upload flow issues exactly
two requests — the create-signal request followed by a single
object-storage upload carrying exactly the URL and post_fields of the
first file descriptor of the create response together with the original
open file handle — and when it succeeds the flow ends normally; when
create-signal does not return 201, no object-storage upload is ever
issued. -/
theorem C9_upload_uses_first_descriptor (srv : Server) (svc : APIService)
    (filePath : PyFile) (name : String) (target : UploadTarget)
    (restFiles : List UploadTarget)
    (hc : (srv.createSignal name (osPathBasename filePath.name)).status = 201)
    (hf : (srv.createSignal name (osPathBasename filePath.name)).files = target :: restFiles) :
    (ctlState (handle_upload srv svc filePath name)).requests =
      [Request.createSignal name (osPathBasename filePath.name) (sessionHeaders svc),
       Request.storagePost target.url filePath target.postFields []] ∧
    (respOk (srv.storageStatus target.url) = true →
      handle_upload srv svc filePath name =
        .ok ⟨[Request.createSignal name (osPathBasename filePath.name) (sessionHeaders svc),
              Request.storagePost target.url filePath target.postFields []],
             [.msg "Sucessfully created object on Cardiomatics API",
              .msg "Uploading file to object store...",
              .msg "Upload successful!"]⟩) ∧
    (∀ srv' : Server,
      (srv'.createSignal name (osPathBasename filePath.name)).status ≠ 201 →
      ∀ (u : String) (f : PyFile) (pf : List (String × String)) (hs : Headers),
        Request.storagePost u f pf hs ∉
          (ctlState (handle_upload srv' svc filePath name)).requests) := by
  have hup : handle_upload srv svc filePath name =
      (if respOk (srv.storageStatus target.url) = true then
        .ok ⟨[Request.createSignal name (osPathBasename filePath.name) (sessionHeaders svc),
              Request.storagePost target.url filePath target.postFields []],
             [.msg "Sucessfully created object on Cardiomatics API",
              .msg "Uploading file to object store...",
              .msg "Upload successful!"]⟩
      else
        .exited 1 ⟨[Request.createSignal name (osPathBasename filePath.name) (sessionHeaders svc),
                    Request.storagePost target.url filePath target.postFields []],
                   [.msg "Sucessfully created object on Cardiomatics API",
                    .msg "Uploading file to object store...",
                    .msg "Object store error"]⟩) := by
    simp only [handle_upload,
      create_new_signal_201 srv svc name (osPathBasename filePath.name) hc, hf,
      upload_file_to_object_storage]
    by_cases hok : respOk (srv.storageStatus target.url) = true
    · simp [hok]
    · simp [hok]
  refine ⟨?_, ?_, ?_⟩
  · rw [hup]
    by_cases hok : respOk (srv.storageStatus target.url) = true
    · simp [hok, ctlState]
    · simp [hok, ctlState]
  · intro hok
    rw [hup]
    simp [hok]
  · intro srv' hne u f pf hs
    by_cases h401 : (srv'.createSignal name (osPathBasename filePath.name)).status = 401
    · simp [handle_upload,
        create_new_signal_401 srv' svc name (osPathBasename filePath.name) h401, ctlState]
    · simp [handle_upload,
        create_new_signal_other srv' svc name (osPathBasename filePath.name) h401 hne,
        ctlState]

/-- C9, witness: the end-to-end scenario of the claim — one descriptor
with URL `"https://example.com"` and fields `{file: "file_data"}` — makes
the flow issue exactly the create request followed by the storage upload
with those exact values and the original handle. -/
theorem C9_upload_uses_first_descriptor_witness :
    handle_upload srvBase svc0 file0 "name" =
      .ok ⟨[Request.createSignal "name" "signal_file.pdf" (sessionHeaders svc0),
            Request.storagePost "https://example.com" file0 [("file", "file_data")] []],
           [.msg "Sucessfully created object on Cardiomatics API",
            .msg "Uploading file to object store...",
            .msg "Upload successful!"]⟩ := by
  have h := (C9_upload_uses_first_descriptor srvBase svc0 file0 "name"
    ⟨"https://example.com", [("file", "file_data")]⟩ [] (by decide) (by decide)).2.1 (by decide)
  rw [h]
  decide

/-! Claim C10. -/

/-- C10: the two operations aimed at storage hosts bypass the
authenticated session: the requests issued by `get_file` and
`upload_file_to_object_storage` carry no headers at all — in particular no
`Private-Token` for any token value — and the storage-bound requests of an
upload run are identical whichever access token the client was built from;
by contrast the session-bound printout and listing requests do carry the
client's `Private-Token`. -/
theorem C10_no_token_to_storage (srv : Server) (url : String) (file : PyFile)
    (postFields : List (String × String)) (svc : APIService) (tok1 tok2 : String)
    (signalId : Int) (filePath : PyFile) (name : String) :
    reqHeaders (get_file srv url).1 = [] ∧
    (∀ t : String, ("Private-Token", t) ∉ reqHeaders (get_file srv url).1) ∧
    reqHeaders (upload_file_to_object_storage srv url file postFields).1 = [] ∧
    (∀ t : String,
      ("Private-Token", t) ∉ reqHeaders (upload_file_to_object_storage srv url file postFields).1) ∧
    List.drop 1 (ctlState (handle_upload srv ⟨tok1⟩ filePath name)).requests =
      List.drop 1 (ctlState (handle_upload srv ⟨tok2⟩ filePath name)).requests ∧
    reqHeaders (request_printout srv svc signalId).1 =
      [("Private-Token", svc.accessToken)] ∧
    reqHeaders (get_signals_page srv svc 1 none).1 =
      [("Private-Token", svc.accessToken)] := by
  refine ⟨rfl, ?_, rfl, ?_, ?_, rfl, rfl⟩
  · intro t
    simp [get_file, reqHeaders]
  · intro t
    simp [upload_file_to_object_storage, reqHeaders]
  · by_cases h401 : (srv.createSignal name (osPathBasename filePath.name)).status = 401
    · simp [handle_upload,
        create_new_signal_401 srv ⟨tok1⟩ name (osPathBasename filePath.name) h401,
        create_new_signal_401 srv ⟨tok2⟩ name (osPathBasename filePath.name) h401, ctlState]
    · by_cases h201 : (srv.createSignal name (osPathBasename filePath.name)).status = 201
      · cases hfs : (srv.createSignal name (osPathBasename filePath.name)).files with
        | nil =>
          simp [handle_upload,
            create_new_signal_201 srv ⟨tok1⟩ name (osPathBasename filePath.name) h201,
            create_new_signal_201 srv ⟨tok2⟩ name (osPathBasename filePath.name) h201,
            hfs, ctlState]
        | cons target fs =>
          simp only [handle_upload,
            create_new_signal_201 srv ⟨tok1⟩ name (osPathBasename filePath.name) h201,
            create_new_signal_201 srv ⟨tok2⟩ name (osPathBasename filePath.name) h201,
            hfs, upload_file_to_object_storage]
          by_cases hok : respOk (srv.storageStatus target.url) = true
          · simp [hok, ctlState]
          · simp [hok, ctlState]
      · simp [handle_upload,
          create_new_signal_other srv ⟨tok1⟩ name (osPathBasename filePath.name) h401 h201,
          create_new_signal_other srv ⟨tok2⟩ name (osPathBasename filePath.name) h401 h201,
          ctlState]

/-- C10, witness: at concrete values, the fetch request of `get_file`
carries no `Private-Token` while the printout request of the same client
does. -/
theorem C10_no_token_to_storage_witness :
    ("Private-Token", "TOKEN") ∉
      reqHeaders (get_file srvBase "https://storage.example/r1").1 ∧
    reqHeaders (request_printout srvBase svc0 1).1 = [("Private-Token", "TOKEN")] :=
  ⟨(C10_no_token_to_storage srvBase "https://storage.example/r1" file0 [] svc0 "A" "B" 1
      file0 "name").2.1 "TOKEN",
   (C10_no_token_to_storage srvBase "https://storage.example/r1" file0 [] svc0 "A" "B" 1
      file0 "name").2.2.2.2.2.1⟩

end Ccc
